import Mathlib

/-!
Verification of the reveal_password application against its specification.

The repository ships the browser-side JavaScript of the application
(`reveal_password.js`, `reveal_password_enhanced.js`, the `reveal_links`,
`mfa_setup`, `bulk_permission_manager` and dashboard pages).  Those files are
embedded here directly.  The server-side engine (authorization gate, rate
limiter, MFA provider, capability-link store, anomaly scorer) is not part of
the source tree; where a claim depends on it, the component is modelled from
the specification text and the corresponding definition says so in its doc
comment.

Machine integers do not occur: every quantity involved (timestamps in
seconds or milliseconds, use counters, scores) is a small natural number in
the original JavaScript/specified Python, so `Nat` is used throughout.
-/

namespace RevealPassword

/-! ## Temporary reveal links: data model and client classification -/

/-- A temporary reveal link record, with the fields the client pages read
(`link_id`, `doctype_revealed`, `document_name`, `field_name`, `created_at`,
`expires_at`, `max_uses`, `current_uses`, `is_active`).  Timestamps are
naturals (milliseconds since epoch, as `new Date(...)` comparisons in the
client). -/
structure TemporaryRevealLink where
  link_id : String
  doctype_revealed : String
  document_name : String
  field_name : String
  created_at : Nat
  expires_at : Nat
  max_uses : Nat
  current_uses : Nat
  is_active : Bool
deriving Repr, DecidableEq

/-- Status badge shown by the `reveal-links` page. -/
inductive LinkStatus where
  | Active
  | Expired
  | Exhausted
  | Revoked
deriving Repr, DecidableEq

/-- Status classification of `render_links` in
`reveal_password/page/reveal_links/reveal_links.js`:
`isExpired = expires < now`, `isExhausted = current_uses >= max_uses`,
`isActive = is_active && !isExpired && !isExhausted`, then the badge is
chosen as Active / Expired / Exhausted / Revoked in that order. -/
def renderStatus (l : TemporaryRevealLink) (now : Nat) : LinkStatus :=
  let isExpired : Bool := decide (l.expires_at < now)
  let isExhausted : Bool := decide (l.max_uses ≤ l.current_uses)
  let isActive : Bool := l.is_active && !isExpired && !isExhausted
  if isActive then .Active
  else if isExpired then .Expired
  else if isExhausted then .Exhausted
  else .Revoked

/-- Active-link predicate of `update_stats` in the same file:
`l.is_active && expires > now && l.current_uses < l.max_uses`. -/
def statsActive (l : TemporaryRevealLink) (now : Nat) : Bool :=
  l.is_active && decide (now < l.expires_at) && decide (l.current_uses < l.max_uses)

/-- Number of links counted as active by `update_stats`. -/
def countActive (links : List TemporaryRevealLink) (now : Nat) : Nat :=
  (links.filter (fun l => statsActive l now)).length

/-! ## Capability link store (server side, absent from the source tree) -/

/-- Errors of `validateAndConsume`, from the specification's taxonomy. -/
inductive LinkError where
  | NotFound
  | Revoked
  | Expired
  | Exhausted
deriving Repr, DecidableEq

/-- The persistent store the link endpoints operate on: the link records plus
the encrypted-field accessor, modelled as an association list from
(doctype, docname, field) to the decrypted secret. -/
structure LinkStore where
  links : List TemporaryRevealLink
  secrets : List ((String × String × String) × String)
deriving Repr, DecidableEq

/-- Decrypted value of a link's target field via the storage collaborator. -/
def LinkStore.secretOf (store : LinkStore) (l : TemporaryRevealLink) : String :=
  ((store.secrets.find? (fun p =>
    p.1 == (l.doctype_revealed, l.document_name, l.field_name))).map Prod.snd).getD ""

/-- Increment the use counter of the link with the given id. -/
def bumpUses (links : List TemporaryRevealLink) (linkId : String) :
    List TemporaryRevealLink :=
  links.map (fun l =>
    if l.link_id == linkId then { l with current_uses := l.current_uses + 1 } else l)

/-- Modelled from the spec: `validateAndConsume(linkId)` of the
CapabilityLinkStore, whose server-side implementation
(`temporary_reveal_link.py`) is not in the source tree.  Single atomic
check-and-increment: `NotFound` if unknown; `Revoked` if not `is_active`;
`Expired` if `now ≥ expires_at`; `Exhausted` if `current_uses ≥ max_uses`;
otherwise increments `current_uses` and returns the decrypted secret.  The
required atomicity means concurrent calls are serialized, so a run is a
sequence of these steps. -/
def validateAndConsume (store : LinkStore) (linkId : String) (now : Nat) :
    Except LinkError String × LinkStore :=
  match store.links.find? (fun l => l.link_id == linkId) with
  | none => (.error .NotFound, store)
  | some l =>
    if !l.is_active then (.error .Revoked, store)
    else if l.expires_at ≤ now then (.error .Expired, store)
    else if l.max_uses ≤ l.current_uses then (.error .Exhausted, store)
    else (.ok (store.secretOf l), { store with links := bumpUses store.links linkId })

/-- Run a sequence of `validateAndConsume` calls (one per element of `times`)
against the same link, returning the list of outcomes and the final store. -/
def runConsumes (store : LinkStore) (linkId : String) (times : List Nat) :
    List (Except LinkError String) × LinkStore :=
  match times with
  | [] => ([], store)
  | t :: ts =>
    let step := validateAndConsume store linkId t
    let rest := runConsumes step.2 linkId ts
    (step.1 :: rest.1, rest.2)

/-- The data-model invariant on links: `current_uses ≤ max_uses`
(the lower bound is automatic for naturals). -/
def linkInvariant (links : List TemporaryRevealLink) : Prop :=
  ∀ l ∈ links, l.current_uses ≤ l.max_uses

instance (links : List TemporaryRevealLink) : Decidable (linkInvariant links) :=
  List.decidableBAll _ links

/-! ## Browser clients -/

/-- A Frappe RPC response body: `r.message` is either absent (`undefined` in
JavaScript, `none` here) or a string. -/
def ResponseMessage := Option String
deriving DecidableEq

/-- JavaScript truthiness of `r.message` when it is a string or `undefined`:
`undefined` and the empty string are falsy, every other string is truthy. -/
def jsTruthy : Option String → Bool
  | none => false
  | some s => !(s == "")

/-- What the basic toggle client does to the user interface after the reveal
call returns. -/
inductive ClientAction where
  | displayPassword (value : String)
  | showMessage (text : String)
deriving Repr, DecidableEq

/-- The `callback` of the reveal call in `add_password_toggle`
(`public/js/reveal_password.js`): `if (r.message)` show the value in the
input, `else` show a fixed msgprint text. -/
def basicRevealCallback (message : Option String) : ClientAction :=
  if jsTruthy message then .displayPassword (message.getD "")
  else .showMessage "You are not authorized to view this password."

/-- A cache entry of `PasswordRevealManager.revealCache`
(`public/js/reveal_password_enhanced.js`): the password and the millisecond
timestamp at which it was stored. -/
structure CacheEntry where
  password : String
  timestamp : Nat
deriving Repr, DecidableEq

/-- The state of the enhanced client's manager that `revealPassword` reads
and writes: the reveal cache, a map from `doctype:docname:fieldname` keys to
entries. -/
structure ManagerState where
  revealCache : List (String × CacheEntry)
deriving Repr, DecidableEq

/-- `this.CACHE_TTL = 60000` (one minute, in milliseconds). -/
def CACHE_TTL : Nat := 60000

/-- Cache key `` `${frm.doctype}:${frm.docname}:${field.df.fieldname}` ``. -/
def cacheKey (doctype docname fieldname : String) : String :=
  doctype ++ ":" ++ docname ++ ":" ++ fieldname

/-- `Map.set` on the reveal cache. -/
def setCache (st : ManagerState) (key : String) (e : CacheEntry) : ManagerState :=
  ⟨(key, e) :: st.revealCache.filter (fun p => !(p.1 == key))⟩

/-- Outcome of one server round trip of the enhanced client: the RPC
resolved with a message field (possibly `undefined`), or it rejected. -/
inductive ServerOutcome where
  | ok (message : Option String)
  | err
deriving Repr, DecidableEq

/-- Result of `PasswordRevealManager.revealPassword` as seen by its caller. -/
inductive RevealResult where
  | revealed (password : String)
  | returnedUndefined
  | returnedNull
deriving Repr, DecidableEq

/-- Full effect of one `revealPassword` call. -/
structure RevealCall where
  result : RevealResult
  state : ManagerState
  serverCalled : Bool
deriving Repr, DecidableEq

/-- `PasswordRevealManager.revealPassword`
(`public/js/reveal_password_enhanced.js`, cache branch and server branch):
on a cache hit younger than `CACHE_TTL` it returns the cached password
without calling the server; otherwise it calls
`reveal_password.reveal.reveal_password` and, when the response resolves
with `message !== undefined`, stores the password in the cache and returns
it; a resolved response without a message field returns `undefined`; a
rejected call returns `null`. -/
def revealPassword (st : ManagerState) (doctype docname fieldname : String)
    (now : Nat) (server : ServerOutcome) : RevealCall :=
  let key := cacheKey doctype docname fieldname
  match st.revealCache.find? (fun p => p.1 == key) with
  | some p =>
    if now - p.2.timestamp < CACHE_TTL then
      ⟨.revealed p.2.password, st, false⟩
    else
      match server with
      | .ok (some pw) => ⟨.revealed pw, setCache st key ⟨pw, now⟩, true⟩
      | .ok none => ⟨.returnedUndefined, st, true⟩
      | .err => ⟨.returnedNull, st, true⟩
  | none =>
    match server with
    | .ok (some pw) => ⟨.revealed pw, setCache st key ⟨pw, now⟩, true⟩
    | .ok none => ⟨.returnedUndefined, st, true⟩
    | .err => ⟨.returnedNull, st, true⟩

/-! ## Rate limiter (server side, absent from the source tree) -/

/-- Modelled from the spec: the sliding window length in seconds. -/
def RATE_WINDOW : Nat := 60

/-- Modelled from the spec: the per-user call limit inside one window. -/
def RATE_LIMIT : Nat := 5

/-- Timestamps (seconds) inside the sliding window ending at `now`:
those with `now - t < RATE_WINDOW`, that is `now < t + RATE_WINDOW`. -/
def recentCount (stamps : List Nat) (now : Nat) : Nat :=
  (stamps.filter (fun t => decide (now < t + RATE_WINDOW))).length

/-- Modelled from the spec: `RateLimiter.check(user)` — the server-side rate
limiter is not in the source tree.  Atomic check-and-increment against the
stamp list of one user: allowed iff fewer than `RATE_LIMIT` stamps are inside
the sliding window, and an allowed call records its own timestamp. -/
def rateCheck (stamps : List Nat) (now : Nat) : Bool × List Nat :=
  if recentCount stamps now < RATE_LIMIT then (true, now :: stamps) else (false, stamps)

/-- Run a sequence of `rateCheck` calls for one user. -/
def runRateChecks (stamps : List Nat) (times : List Nat) : List Bool × List Nat :=
  match times with
  | [] => ([], stamps)
  | t :: ts =>
    let step := rateCheck stamps t
    let rest := runRateChecks step.2 ts
    (step.1 :: rest.1, rest.2)

/-! ## MFA provider (server side, absent from the source tree) -/

/-- A backup code together with its used flag. -/
structure BackupCode where
  code : String
  used : Bool
deriving Repr, DecidableEq

/-- The persisted MFA record of one user: shared secret, enabled flag, and
backup codes each with a used flag. -/
structure MFASecret where
  user : String
  secret : String
  enabled : Bool
  backupCodes : List BackupCode
deriving Repr, DecidableEq

/-- Modelled from the spec: the TOTP step size (30 seconds, as the MFA setup
page states: the code changes every 30 seconds). -/
def TOTP_STEP : Nat := 30

/-- Modelled from the spec: the 6-digit code for one time step, derived
deterministically from the shared secret.  The concrete derivation
(HMAC-based in the absent server code) is abstracted by a simple keyed hash;
only its determinism matters for the claims. -/
def totpToken (secret : String) (step : Nat) : String :=
  toString ((secret.data.foldl (fun a c => a * 31 + c.toNat) 7 + step * 131) % 1000000)

/-- Modelled from the spec: time-step verification with a tolerance window of
the current step plus or minus one, to absorb clock drift. -/
def totpVerify (secret : String) (now : Nat) (token : String) : Bool :=
  let step := now / TOTP_STEP
  token == totpToken secret step
    || token == totpToken secret (step + 1)
    || (decide (0 < step) && token == totpToken secret (step - 1))

/-- Consume the first unused backup code equal to `c`: returns whether a
match was found and the updated code list (the matching entry marked used). -/
def consumeBackup (codes : List BackupCode) (c : String) :
    Bool × List BackupCode :=
  match codes with
  | [] => (false, [])
  | b :: rest =>
    if b.code == c && !b.used then (true, { b with used := true } :: rest)
    else
      let r := consumeBackup rest c
      (r.1, b :: r.2)

/-- Modelled from the spec: `MFAProvider.verify(user, tokenOrBackupCode)` —
the server-side provider (`mfa_secret.py`) is not in the source tree.  The
time-step algorithm is tried first (with the tolerance window); on failure
the unused backup codes are checked and the first match is atomically
invalidated. -/
def mfaVerify (s : MFASecret) (now : Nat) (token : String) : Bool × MFASecret :=
  if totpVerify s.secret now token then (true, s)
  else
    let r := consumeBackup s.backupCodes token
    (r.1, { s with backupCodes := r.2 })

/-- Run a sequence of `mfaVerify` calls (time and presented token per call)
and return the final record. -/
def runVerifies (s : MFASecret) (calls : List (Nat × String)) : MFASecret :=
  match calls with
  | [] => s
  | c :: cs => runVerifies (mfaVerify s c.1 c.2).2 cs

/-- Every backup-code entry carrying the code `c` is marked used. -/
def codeConsumed (s : MFASecret) (c : String) : Prop :=
  ∀ b ∈ s.backupCodes, b.code = c → b.used = true

instance (s : MFASecret) (c : String) : Decidable (codeConsumed s c) :=
  List.decidableBAll _ s.backupCodes

/-! ## Session ledger and anomaly scorer (server side, absent from the source tree) -/

/-- A RevealSession audit record: user, target, timestamp, source ip, device
fingerprint, success flag, anomaly score and reason codes. -/
structure SessionRecord where
  user : String
  doctype_revealed : String
  document_name : String
  field_name : String
  timestamp : Nat
  ip_address : String
  device : String
  success : Bool
  anomaly_score : Nat
  reasons : List String
deriving Repr, DecidableEq

/-- The request context the scorer sees. -/
structure ScoreContext where
  user : String
  ip_address : String
  device : String
  now : Nat
deriving Repr, DecidableEq

/-- Hour of day of a timestamp in seconds. -/
def hourOf (t : Nat) : Nat := t / 3600 % 24

/-- Circular distance between two hours of day. -/
def hourDist (a b : Nat) : Nat :=
  min ((a + 24 - b % 24) % 24) ((b + 24 - a % 24) % 24)

/-- Median of a list of naturals (middle element of the sorted list; 0 for
the empty list). -/
def natMedian (l : List Nat) : Nat :=
  ((l.mergeSort (fun a b => decide (a ≤ b))).drop (l.length / 2)).headD 0

/-- Modelled from the spec: time-of-day signal — deviation of the request
hour from the user's historical median access hour, scaled, contributing
0 to 20 points; neutral 0 on empty history. -/
def timeSignal (hist : List SessionRecord) (ctx : ScoreContext) : Nat :=
  match hist with
  | [] => 0
  | _ => min 20 (2 * hourDist (hourOf ctx.now) (natMedian (hist.map (fun r => hourOf r.timestamp))))

/-- Modelled from the spec: the lookback window (seconds) for IP novelty. -/
def IP_LOOKBACK : Nat := 30 * 24 * 3600

/-- Modelled from the spec: IP-novelty signal — 20 points when the source IP
was not seen for this user within the lookback window; neutral 0 on empty
history. -/
def ipSignal (hist : List SessionRecord) (ctx : ScoreContext) : Nat :=
  match hist with
  | [] => 0
  | _ =>
    if hist.any (fun r =>
        r.ip_address == ctx.ip_address && decide (ctx.now < r.timestamp + IP_LOOKBACK))
    then 0 else 20

/-- Modelled from the spec: device-fingerprint novelty signal — 20 points
when the fingerprint was never seen for this user; neutral 0 on empty
history. -/
def deviceSignal (hist : List SessionRecord) (ctx : ScoreContext) : Nat :=
  match hist with
  | [] => 0
  | _ => if hist.any (fun r => r.device == ctx.device) then 0 else 20

/-- Modelled from the spec: frequency signal — reveals in the last hour
beyond the user's historical per-hour baseline, 5 points each, capped at
20; neutral 0 on empty history. -/
def freqSignal (hist : List SessionRecord) (ctx : ScoreContext) : Nat :=
  let recent := (hist.filter (fun r => decide (ctx.now < r.timestamp + 3600))).length
  let baseline := hist.length / 24
  min 20 (5 * (recent - baseline))

/-- Modelled from the spec: recent-failure-rate signal — proportion of
failed attempts among the last 20 records, scaled to 0–20; neutral 0 on
empty history. -/
def failSignal (hist : List SessionRecord) : Nat :=
  let recent := hist.take 20
  let fails := (recent.filter (fun r => !r.success)).length
  min 20 (20 * fails / max 1 recent.length)

/-- Modelled from the spec: `AnomalyScorer.score(context, history)` — the
server-side scorer is not in the source tree.  Five independent signals of
0–20 points each, summed and capped at 100, with the reason codes of the
non-zero signals. -/
def anomalyScore (ctx : ScoreContext) (hist : List SessionRecord) : Nat × List String :=
  let s1 := timeSignal hist ctx
  let s2 := ipSignal hist ctx
  let s3 := deviceSignal hist ctx
  let s4 := freqSignal hist ctx
  let s5 := failSignal hist
  let reasons :=
    (if s1 ≠ 0 then ["unusual_hour"] else []) ++
    (if s2 ≠ 0 then ["new_ip"] else []) ++
    (if s3 ≠ 0 then ["new_device"] else []) ++
    (if s4 ≠ 0 then ["high_frequency"] else []) ++
    (if s5 ≠ 0 then ["recent_failures"] else [])
  (min 100 (s1 + s2 + s3 + s4 + s5), reasons)

/-! ## Authorization gate (server side, absent from the source tree) -/

/-- The grantee of a field-permission rule: a role or an explicit user. -/
inductive Grantee where
  | role (r : String)
  | user (u : String)
deriving Repr, DecidableEq

/-- A Field Permission Matrix row: doctype, field name, grantee and the
`can_reveal` flag (the fields the `field_permission_matrix` client reads). -/
structure FieldPermission where
  doctype_name : String
  field_name : String
  grantee : Grantee
  can_reveal : Bool
deriving Repr, DecidableEq

/-- The authorization errors of the gate's guard chain. -/
inductive AuthorizationError where
  | NotTrusted
  | DoctypeNotAllowed
  | FieldPermissionDenied
  | RateLimited
  | MFARequired
  | MFAInvalid
deriving Repr, DecidableEq

/-- Reason code string of an authorization error, as recorded in the audit
log. -/
def AuthorizationError.reasonCode : AuthorizationError → String
  | .NotTrusted => "NotTrusted"
  | .DoctypeNotAllowed => "DoctypeNotAllowed"
  | .FieldPermissionDenied => "FieldPermissionDenied"
  | .RateLimited => "RateLimited"
  | .MFARequired => "MFARequired"
  | .MFAInvalid => "MFAInvalid"

/-- The persistent state the gate reads and writes. -/
structure GateState where
  trustedUsers : List (String × Bool)
  allowedDoctypes : List String
  fieldPerms : List FieldPermission
  userRoles : List (String × List String)
  mfaSecrets : List MFASecret
  rateStamps : List (String × List Nat)
  secrets : List ((String × String × String) × String)
  sessions : List SessionRecord
deriving Repr, DecidableEq

/-- One reveal request. -/
structure RevealRequest where
  doctype : String
  docname : String
  fieldname : String
  user : String
  mfaToken : Option String
  now : Nat
  ip_address : String
  device : String
deriving Repr, DecidableEq

/-- What the gate hands back to the calling client. -/
inductive RevealOutcome where
  | revealed (secret : String)
  | denied (callerMsg : String)
  | storageFault (detail : String)
deriving Repr, DecidableEq

/-- Modelled from the spec: guard 1 — the user is an enabled Trusted User. -/
def isTrusted (st : GateState) (u : String) : Bool :=
  st.trustedUsers.any (fun p => p.1 == u && p.2)

/-- Roles held by a user. -/
def rolesOf (st : GateState) (u : String) : List String :=
  (((st.userRoles.find? (fun p => p.1 == u))).map Prod.snd).getD []

/-- A rule matches the request: same doctype and field, `can_reveal` set, and
the grantee is one of the user's roles or the user explicitly. -/
def ruleMatches (p : FieldPermission) (doctype field user : String)
    (roles : List String) : Bool :=
  p.doctype_name == doctype && p.field_name == field && p.can_reveal &&
    (match p.grantee with
     | .user u => u == user
     | .role r => roles.contains r)

/-- Modelled from the spec: guard 3 — `has_field_permission`, true iff some
FieldPermission rule matches (doctype, field) for the user's roles or the
user explicitly.  No match means deny. -/
def hasFieldPermission (st : GateState) (doctype field user : String) : Bool :=
  st.fieldPerms.any (fun p => ruleMatches p doctype field user (rolesOf st user))

/-- Rate-limiter stamps of one user. -/
def stampsOf (st : GateState) (u : String) : List Nat :=
  (((st.rateStamps.find? (fun p => p.1 == u))).map Prod.snd).getD []

/-- Replace the rate-limiter stamps of one user. -/
def setStamps (st : GateState) (u : String) (stamps : List Nat) : GateState :=
  { st with rateStamps := (u, stamps) :: st.rateStamps.filter (fun p => !(p.1 == u)) }

/-- Replace one user's MFA record. -/
def setMfa (st : GateState) (m : MFASecret) : GateState :=
  { st with mfaSecrets := st.mfaSecrets.map (fun x => if x.user == m.user then m else x) }

/-- Prior history of one user in the session ledger. -/
def historyOf (st : GateState) (u : String) : List SessionRecord :=
  st.sessions.filter (fun r => r.user == u)

/-- Audit record of a failed attempt: the first guard that tripped is
recorded internally. -/
def mkFailSession (req : RevealRequest) (e : AuthorizationError) : SessionRecord :=
  ⟨req.user, req.doctype, req.docname, req.fieldname, req.now,
   req.ip_address, req.device, false, 0, [e.reasonCode]⟩

/-- Modelled from the spec: the single generic message surfaced to the
caller on any authorization failure. -/
def notAuthorizedMsg : String := "Not authorized"

/-- Append a failure record and surface the generic message. -/
def denyWith (st : GateState) (req : RevealRequest) (e : AuthorizationError) :
    RevealOutcome × GateState :=
  (.denied notAuthorizedMsg, { st with sessions := mkFailSession req e :: st.sessions })

/-- Modelled from the spec: steps 6 to 8 of the gate — decrypt the field via
the storage collaborator, compute the anomaly score over the user's history,
append the success RevealSession record and return the secret.  A storage
fault is logged and propagated unchanged. -/
def finishReveal (st : GateState) (req : RevealRequest) :
    RevealOutcome × GateState :=
  match st.secrets.find? (fun p => p.1 == (req.doctype, req.docname, req.fieldname)) with
  | none =>
    (.storageFault "storage error",
     { st with sessions :=
        ⟨req.user, req.doctype, req.docname, req.fieldname, req.now,
         req.ip_address, req.device, false, 0, ["StorageError"]⟩ :: st.sessions })
  | some p =>
    let sc := anomalyScore ⟨req.user, req.ip_address, req.device, req.now⟩
      (historyOf st req.user)
    (.revealed p.2,
     { st with sessions :=
        ⟨req.user, req.doctype, req.docname, req.fieldname, req.now,
         req.ip_address, req.device, true, sc.1, sc.2⟩ :: st.sessions })

/-- Modelled from the spec: `AuthorizationGate.reveal` (`reveal.py`, absent
from the source tree).  Ordered fail-closed guard chain: trusted user,
whitelisted doctype, field permission, rate limit, MFA; then decryption,
anomaly scoring and audit logging.  Every invocation appends exactly one
RevealSession record, and every authorization failure surfaces the one
generic not-authorized message while the precise reason is only logged. -/
def reveal (st : GateState) (req : RevealRequest) : RevealOutcome × GateState :=
  if !isTrusted st req.user then
    denyWith st req .NotTrusted
  else if !st.allowedDoctypes.contains req.doctype then
    denyWith st req .DoctypeNotAllowed
  else if !hasFieldPermission st req.doctype req.fieldname req.user then
    denyWith st req .FieldPermissionDenied
  else
    let rc := rateCheck (stampsOf st req.user) req.now
    let st1 := setStamps st req.user rc.2
    if !rc.1 then
      denyWith st1 req .RateLimited
    else
      match st1.mfaSecrets.find? (fun m => m.user == req.user && m.enabled) with
      | none => finishReveal st1 req
      | some m =>
        match req.mfaToken with
        | none => denyWith st1 req .MFARequired
        | some tok =>
          let v := mfaVerify m req.now tok
          let st2 := setMfa st1 v.2
          if !v.1 then denyWith st2 req .MFAInvalid
          else finishReveal st2 req

/-! ## Helper predicates and concrete fixtures -/

/-- Number of successful outcomes in a list of consume results. -/
def countOk (rs : List (Except LinkError String)) : Nat :=
  (rs.filter (fun r => match r with | .ok _ => true | .error _ => false)).length

/-- Number of `Exhausted` outcomes in a list of consume results. -/
def countExhausted (rs : List (Except LinkError String)) : Nat :=
  (rs.filter (fun r => match r with | .error .Exhausted => true | _ => false)).length

/-- Every backup-code entry in the list carrying the code `c` is marked used. -/
def codeConsumedL (codes : List BackupCode) (c : String) : Prop :=
  ∀ b ∈ codes, b.code = c → b.used = true

instance (codes : List BackupCode) (c : String) : Decidable (codeConsumedL codes c) :=
  List.decidableBAll _ codes

/-- A link that is active, unused, and expires at time 100 (fixture). -/
def boundaryLink : TemporaryRevealLink :=
  ⟨"lk1", "User", "alice", "password", 0, 100, 1, 0, true⟩

/-- A single-link store holding `boundaryLink` and its secret (fixture). -/
def boundaryStore : LinkStore :=
  ⟨[boundaryLink], [(("User", "alice", "password"), "s3cret")]⟩

/-- A gate state with one enabled trusted user `u1`, doctype `User`
whitelisted, a role grant for `Manager` on `User.password` which `u1` holds,
no MFA, a fresh rate limiter and one stored secret (fixture). -/
def gateFixture : GateState :=
  ⟨[("u1", true)], ["User"],
   [⟨"User", "password", .role "Manager", true⟩],
   [("u1", ["Manager"])], [], [], [(("User", "u1", "password"), "pw123")], []⟩

/-- The same gate state with no field-permission rows at all (fixture). -/
def gateFixtureNoPerm : GateState :=
  ⟨[("u1", true)], ["User"], [], [("u1", ["Manager"])], [], [],
   [(("User", "u1", "password"), "pw123")], []⟩

/-- A gate state with no trusted users at all (fixture). -/
def gateFixtureUntrusted : GateState :=
  ⟨[], ["User"], [], [], [], [], [], []⟩

/-- A reveal request by `u1` for `User/u1.password` (fixture). -/
def requestFixture : RevealRequest :=
  ⟨"User", "u1", "password", "u1", none, 1000, "10.0.0.1", "dev1"⟩

/-- An MFA record with two unused backup codes (fixture). -/
def mfaFixture : MFASecret :=
  ⟨"u1", "k", true, [⟨"AAAA1111", false⟩, ⟨"BBBB2222", false⟩]⟩

/-! ## Theorems -/

/-- Claim C10: the basic toggle client reveals the returned value iff the
response message is truthy, so a successfully returned empty-string secret
makes it display the not-authorized message, while the enhanced client
(testing `message !== undefined`) reveals the empty value: the two clients
disagree on empty secrets. -/
theorem clients_disagree_on_empty_secret :
    (∀ msg : Option String,
      (∃ v, basicRevealCallback msg = .displayPassword v) ↔ jsTruthy msg = true) ∧
    basicRevealCallback (some "") =
      .showMessage "You are not authorized to view this password." ∧
    (∀ doctype docname fieldname : String, ∀ t : Nat,
      (revealPassword ⟨[]⟩ doctype docname fieldname t (.ok (some ""))).result =
        .revealed "") := by
  refine ⟨fun msg => ?_, rfl, fun doctype docname fieldname t => rfl⟩
  constructor
  · rintro ⟨v, hv⟩
    by_contra h
    simp only [Bool.not_eq_true] at h
    simp [basicRevealCallback, h] at hv
  · intro h
    exact ⟨msg.getD "", by simp [basicRevealCallback, h]⟩

/-- Claim C8: the anomaly score is always in `[0, 100]` (score is a natural,
so the lower bound is automatic), each of the five signals contributes at
most 20 points, and on empty history every signal resolves to the neutral
baseline 0 so the score of a first-ever reveal is the defined baseline 0 and
the computation is a total function (never an error). -/
theorem anomaly_score_bounded (ctx : ScoreContext) (hist : List SessionRecord) :
    (anomalyScore ctx hist).1 ≤ 100 ∧
    timeSignal hist ctx ≤ 20 ∧
    ipSignal hist ctx ≤ 20 ∧
    deviceSignal hist ctx ≤ 20 ∧
    freqSignal hist ctx ≤ 20 ∧
    failSignal hist ≤ 20 ∧
    timeSignal [] ctx = 0 ∧
    ipSignal [] ctx = 0 ∧
    deviceSignal [] ctx = 0 ∧
    freqSignal [] ctx = 0 ∧
    failSignal [] = 0 ∧
    (anomalyScore ctx []).1 = 0 := by
  refine ⟨Nat.min_le_left _ _, ?_, ?_, ?_, Nat.min_le_left _ _, Nat.min_le_left _ _,
    rfl, rfl, rfl, rfl, rfl, rfl⟩
  · cases hist with
    | nil => simp [timeSignal]
    | cons a l => exact Nat.min_le_left _ _
  · cases hist with
    | nil => simp [ipSignal]
    | cons a l =>
      simp only [ipSignal]
      split <;> omega
  · cases hist with
    | nil => simp [deviceSignal]
    | cons a l =>
      simp only [deviceSignal]
      split <;> omega

/-- Claim C4, counterexample: a link that is active, unused (`max_uses = 1`,
`current_uses = 0`) and whose `expires_at` equals the current time is
classified `Active` by `render_links` — the claim's consumability condition
`is_active ∧ now < expires_at ∧ current_uses < max_uses` is false at that
instant, so the claimed equivalence with the `Active` classification fails
(the code tests `expires < now`, not `now ≥ expires_at`). -/
theorem link_active_at_expiry_instant :
    renderStatus boundaryLink 100 = .Active ∧
    ¬ (boundaryLink.is_active = true ∧ 100 < boundaryLink.expires_at ∧
       boundaryLink.current_uses < boundaryLink.max_uses) := by
  decide

/-- Claim C4 as amended: every link satisfies `current_uses ≤ max_uses`
(preserved by `validateAndConsume`, with link ids unique), and
`validateAndConsume` succeeds exactly when
`is_active ∧ now < expires_at ∧ current_uses < max_uses` — as does the
`update_stats` active count — but the `render_links` status badge classifies
a link `Active` under the boundary-inclusive condition
`is_active ∧ now ≤ expires_at ∧ current_uses < max_uses`: a link whose
`expires_at` equals the current time is still shown `Active` (`Expired`
requires `expires_at < now` strictly there). -/
theorem link_invariant_and_classification :
    (∀ (l : TemporaryRevealLink) (now : Nat),
      renderStatus l now = .Active ↔
        (l.is_active = true ∧ now ≤ l.expires_at ∧ l.current_uses < l.max_uses)) ∧
    (∀ (l : TemporaryRevealLink) (now : Nat),
      statsActive l now = true ↔
        (l.is_active = true ∧ now < l.expires_at ∧ l.current_uses < l.max_uses)) ∧
    (∀ (store : LinkStore) (l : TemporaryRevealLink) (now : Nat),
      store.links = [l] →
      ((∃ s, (validateAndConsume store l.link_id now).1 = .ok s) ↔
        (l.is_active = true ∧ now < l.expires_at ∧ l.current_uses < l.max_uses))) ∧
    (∀ (store : LinkStore) (linkId : String) (now : Nat),
      (store.links.map TemporaryRevealLink.link_id).Nodup →
      linkInvariant store.links →
      linkInvariant ((validateAndConsume store linkId now).2).links) := by
  refine ⟨?_, ?_, ?_, ?_⟩
  · intro l now
    by_cases h1 : l.expires_at < now <;> by_cases h2 : l.max_uses ≤ l.current_uses <;>
      cases h3 : l.is_active <;>
      (simp [renderStatus, h1, h2, h3]; try omega)
  · intro l now
    cases h3 : l.is_active <;> simp [statsActive, h3]
  · intro store l now hlinks
    have hfind : store.links.find? (fun x => x.link_id == l.link_id) = some l := by
      simp [hlinks]
    constructor
    · rintro ⟨s, hs⟩
      by_contra hc
      unfold validateAndConsume at hs
      rw [hfind] at hs
      by_cases h1 : l.is_active <;> by_cases h2 : l.expires_at ≤ now <;>
        by_cases h3 : l.max_uses ≤ l.current_uses <;>
        simp [h1, h2, h3] at hs hc
    · rintro ⟨h1, h2, h3⟩
      refine ⟨store.secretOf l, ?_⟩
      unfold validateAndConsume
      rw [hfind]
      simp [h1, Nat.not_le.mpr h2, Nat.not_le.mpr h3]
  · intro store linkId now hnodup hinv
    unfold validateAndConsume
    cases hfind : store.links.find? (fun x => x.link_id == linkId) with
    | none => exact hinv
    | some l =>
      by_cases h1 : l.is_active <;> by_cases h2 : l.expires_at ≤ now <;>
        by_cases h3 : l.max_uses ≤ l.current_uses <;>
        simp [h1, h2, h3] <;>
        try exact hinv
      -- remaining case: the consume succeeded and the counter was bumped
      intro x hx
      have hl : l ∈ store.links := List.mem_of_find?_eq_some hfind
      have hlid : l.link_id == linkId := by
        have := List.find?_some hfind
        simpa using this
      simp only [bumpUses, List.mem_map] at hx
      obtain ⟨y, hy, hxy⟩ := hx
      by_cases hid : y.link_id == linkId
      · have hy_eq : y = l := by
          apply List.inj_on_of_nodup_map hnodup hy hl
          rw [eq_of_beq hid, eq_of_beq hlid]
        subst hy_eq
        rw [← hxy]
        simp [hid]
        omega
      · rw [← hxy]
        simp [hid]
        exact hinv y hy

/-- Claim C4 witness: the amended classification and invariant theorem
applied to the concrete fixture store at time 5. -/
theorem link_invariant_and_classification_witness :
    (boundaryStore.links.map TemporaryRevealLink.link_id).Nodup ∧
    linkInvariant boundaryStore.links ∧
    linkInvariant ((validateAndConsume boundaryStore "lk1" 5).2).links ∧
    (∃ s, (validateAndConsume boundaryStore boundaryLink.link_id 5).1 = .ok s) :=
  ⟨by decide, by decide,
   link_invariant_and_classification.2.2.2 boundaryStore "lk1" 5 (by decide) (by decide),
   (link_invariant_and_classification.2.2.1 boundaryStore boundaryLink 5 (by decide)).mpr
     (by decide)⟩

/-- Claim C9: after a successful reveal of a field at time `t0`, a second
reveal request for the same (doctype, docname, fieldname) within
`CACHE_TTL = 60000` milliseconds is answered from the client cache: it
returns the cached password, does not invoke the server's `reveal_password`
method (so the server runs no authorization check, rate-limit increment, or
RevealSession append for it), and leaves the client state unchanged —
whatever the server would have answered. -/
theorem cached_reveal_skips_server (st : ManagerState)
    (doctype docname fieldname : String) (t0 t1 : Nat) (pw : String)
    (server2 : ServerOutcome)
    (hsrv : (revealPassword st doctype docname fieldname t0 (.ok (some pw))).serverCalled
      = true)
    (hfresh : t1 - t0 < CACHE_TTL) :
    (revealPassword (revealPassword st doctype docname fieldname t0 (.ok (some pw))).state
        doctype docname fieldname t1 server2).result = .revealed pw ∧
    (revealPassword (revealPassword st doctype docname fieldname t0 (.ok (some pw))).state
        doctype docname fieldname t1 server2).serverCalled = false ∧
    (revealPassword (revealPassword st doctype docname fieldname t0 (.ok (some pw))).state
        doctype docname fieldname t1 server2).state =
      (revealPassword st doctype docname fieldname t0 (.ok (some pw))).state := by
  have hstate :
      (revealPassword st doctype docname fieldname t0 (.ok (some pw))).state =
        setCache st (cacheKey doctype docname fieldname) ⟨pw, t0⟩ := by
    unfold revealPassword at hsrv ⊢
    dsimp only at hsrv ⊢
    cases hf : st.revealCache.find? (fun p => p.1 == cacheKey doctype docname fieldname) with
    | none => rfl
    | some p =>
      rw [hf] at hsrv
      by_cases ht : t0 - p.2.timestamp < CACHE_TTL
      · simp [ht] at hsrv
      · simp [ht]
  rw [hstate]
  have hfind :
      (setCache st (cacheKey doctype docname fieldname) ⟨pw, t0⟩).revealCache.find?
        (fun p => p.1 == cacheKey doctype docname fieldname) =
        some (cacheKey doctype docname fieldname, ⟨pw, t0⟩) := by
    simp [setCache]
  unfold revealPassword
  dsimp only
  rw [hfind]
  simp [hfresh]

/-- Claim C9 witness: the cached-repeat theorem applied to an empty cache, a
first reveal at millisecond 1000 and a repeat at millisecond 30000, with the
second server outcome an error (which the client never consults). -/
theorem cached_reveal_skips_server_witness :
    (revealPassword ⟨[]⟩ "User" "u1" "password" 1000 (.ok (some "pw"))).serverCalled
      = true ∧
    (30000 : Nat) - 1000 < CACHE_TTL ∧
    (revealPassword (revealPassword ⟨[]⟩ "User" "u1" "password" 1000
        (.ok (some "pw"))).state "User" "u1" "password" 30000 .err).result =
      .revealed "pw" :=
  ⟨by decide, by decide,
   (cached_reveal_skips_server ⟨[]⟩ "User" "u1" "password" 1000 30000 "pw" .err
     (by decide) (by decide)).1⟩

/-- Claim C2: every invocation of the reveal operation — returning the
secret, tripping any guard, or faulting on storage — appends exactly one
RevealSession record to the audit log: the post-state ledger is one record
longer than the pre-state ledger, never zero, never more. -/
theorem every_reveal_logs_one_session (st : GateState) (req : RevealRequest) :
    ((reveal st req).2).sessions.length = st.sessions.length + 1 := by
  unfold reveal
  dsimp only
  split
  · simp [denyWith]
  · split
    · simp [denyWith]
    · split
      · simp [denyWith]
      · split
        · simp [denyWith, setStamps]
        · split
          · unfold finishReveal
            dsimp only
            split <;> simp [setStamps]
          · split
            · simp [denyWith, setStamps]
            · split
              · simp [denyWith, setMfa, setStamps]
              · unfold finishReveal
                dsimp only
                split <;> simp [setMfa, setStamps]

/-- Every reveal outcome is the generic denial, a revealed secret, or the
propagated storage fault (helper for the claims about the guard chain). -/
theorem reveal_outcome_shape (st : GateState) (req : RevealRequest) :
    (reveal st req).1 = .denied notAuthorizedMsg ∨
    (∃ s, (reveal st req).1 = .revealed s) ∨
    (reveal st req).1 = .storageFault "storage error" := by
  unfold reveal
  dsimp only
  split
  · left; rfl
  · split
    · left; rfl
    · split
      · left; rfl
      · split
        · left; rfl
        · split
          · unfold finishReveal
            dsimp only
            split
            · right; right; rfl
            · right; left; exact ⟨_, rfl⟩
          · split
            · left; rfl
            · split
              · left; rfl
              · unfold finishReveal
                dsimp only
                split
                · right; right; rfl
                · right; left; exact ⟨_, rfl⟩

/-- Claim C3: for every denied reveal attempt the message surfaced to the
caller is the one generic not-authorized text, identical whichever guard
tripped (NotTrusted, DoctypeNotAllowed, FieldPermissionDenied, RateLimited,
or an MFA failure) — so any two denied runs surface equal messages and the
caller-visible output does not depend on the failing layer; the precise
reason is recorded only in the audit log.  The basic toggle client likewise
shows one fixed text for every denied response. -/
theorem denial_message_uniform :
    (∀ (st : GateState) (req : RevealRequest) (m : String),
      (reveal st req).1 = .denied m → m = notAuthorizedMsg) ∧
    (∀ (st1 st2 : GateState) (req1 req2 : RevealRequest) (m1 m2 : String),
      (reveal st1 req1).1 = .denied m1 → (reveal st2 req2).1 = .denied m2 → m1 = m2) ∧
    (∀ msg : Option String, jsTruthy msg = false →
      basicRevealCallback msg =
        .showMessage "You are not authorized to view this password.") := by
  have key : ∀ (st : GateState) (req : RevealRequest) (m : String),
      (reveal st req).1 = .denied m → m = notAuthorizedMsg := by
    intro st req m h
    rcases reveal_outcome_shape st req with h1 | ⟨s, h1⟩ | h1 <;> rw [h1] at h
    · exact (RevealOutcome.denied.inj h).symm
    · exact absurd h (by simp)
    · exact absurd h (by simp)
  refine ⟨key, fun st1 st2 req1 req2 m1 m2 h1 h2 =>
    (key _ _ _ h1).trans (key _ _ _ h2).symm, ?_⟩
  intro msg h
  simp [basicRevealCallback, h]

/-- Claim C3 witness: two concretely denied runs — an untrusted user and a
missing field permission — surface the same message, and the basic client
shows its fixed text on an `undefined` response. -/
theorem denial_message_uniform_witness :
    (reveal gateFixtureUntrusted requestFixture).1 = .denied notAuthorizedMsg ∧
    (reveal gateFixtureNoPerm requestFixture).1 = .denied notAuthorizedMsg ∧
    notAuthorizedMsg = notAuthorizedMsg ∧
    basicRevealCallback none =
      .showMessage "You are not authorized to view this password." :=
  ⟨by decide, by decide,
   denial_message_uniform.2.1 gateFixtureUntrusted gateFixtureNoPerm requestFixture
     requestFixture notAuthorizedMsg notAuthorizedMsg (by decide) (by decide),
   denial_message_uniform.2.2 none (by decide)⟩

/-- Claim C1: if no FieldPermission rule matches (doctype, field) for the
requesting user's roles or the user explicitly, the reveal is denied — the
outcome is the generic denial, never the secret — and when the earlier
guards pass (trusted user, whitelisted doctype) the attempt is logged with
reason `FieldPermissionDenied`; absence of a rule is never treated as
permission. -/
theorem fail_closed_no_matching_rule (st : GateState) (req : RevealRequest)
    (h : hasFieldPermission st req.doctype req.fieldname req.user = false) :
    (reveal st req).1 = .denied notAuthorizedMsg ∧
    (isTrusted st req.user = true →
      st.allowedDoctypes.contains req.doctype = true →
      reveal st req = (.denied notAuthorizedMsg,
        { st with sessions := mkFailSession req .FieldPermissionDenied :: st.sessions })) := by
  constructor
  · unfold reveal
    dsimp only
    split
    · rfl
    · split
      · rfl
      · split
        · rfl
        · rename_i h3
          rw [h] at h3
          simp at h3
  · intro h1 h2
    have h2m : req.doctype ∈ st.allowedDoctypes := by simpa using h2
    unfold reveal
    simp [h1, h2m, h, denyWith]

/-- Claim C1 witness: the fail-closed theorem applied to the fixture state
with no field-permission rows, where the user is trusted and the doctype
whitelisted. -/
theorem fail_closed_no_matching_rule_witness :
    hasFieldPermission gateFixtureNoPerm "User" "password" "u1" = false ∧
    isTrusted gateFixtureNoPerm "u1" = true ∧
    (reveal gateFixtureNoPerm requestFixture).1 = .denied notAuthorizedMsg :=
  ⟨by decide, by decide,
   (fail_closed_no_matching_rule gateFixtureNoPerm requestFixture (by decide)).1⟩

/-- A rate check with fewer than `RATE_LIMIT` stored stamps always allows
the call and records its timestamp (helper). -/
theorem rateCheck_allows_of_short (stamps : List Nat) (now : Nat)
    (h : stamps.length < RATE_LIMIT) :
    rateCheck stamps now = (true, now :: stamps) := by
  unfold rateCheck
  have hle : recentCount stamps now ≤ stamps.length := List.length_filter_le _ _
  rw [if_pos (lt_of_le_of_lt hle h)]

/-- Claim C7: the rate limiter enforces a sliding 60-second window with a
limit of 5 calls per user: from a fresh limiter, five calls at times
`t0 ≤ … ≤ t4` are all allowed; a sixth call at `t5` still inside the window
opened at `t0` (`t5 < t0 + 60`) is rejected; and a later call at `t6` made
after the window has elapsed for every recorded stamp (`t4 + 60 ≤ t6`)
is allowed again. -/
theorem sliding_window_rate_limit (t0 t1 t2 t3 t4 t5 t6 : Nat)
    (h01 : t0 ≤ t1) (h12 : t1 ≤ t2) (h23 : t2 ≤ t3) (h34 : t3 ≤ t4)
    (h5 : t5 < t0 + 60) (h6 : t4 + 60 ≤ t6) :
    (runRateChecks [] [t0, t1, t2, t3, t4]).1 = [true, true, true, true, true] ∧
    (rateCheck (runRateChecks [] [t0, t1, t2, t3, t4]).2 t5).1 = false ∧
    (rateCheck (runRateChecks [] [t0, t1, t2, t3, t4]).2 t6).1 = true := by
  have s0 : rateCheck [] t0 = (true, [t0]) :=
    rateCheck_allows_of_short _ _ (by simp [RATE_LIMIT])
  have s1 : rateCheck [t0] t1 = (true, [t1, t0]) :=
    rateCheck_allows_of_short _ _ (by simp [RATE_LIMIT])
  have s2 : rateCheck [t1, t0] t2 = (true, [t2, t1, t0]) :=
    rateCheck_allows_of_short _ _ (by simp [RATE_LIMIT])
  have s3 : rateCheck [t2, t1, t0] t3 = (true, [t3, t2, t1, t0]) :=
    rateCheck_allows_of_short _ _ (by simp [RATE_LIMIT])
  have s4 : rateCheck [t3, t2, t1, t0] t4 = (true, [t4, t3, t2, t1, t0]) :=
    rateCheck_allows_of_short _ _ (by simp [RATE_LIMIT])
  have hrun : runRateChecks [] [t0, t1, t2, t3, t4] =
      ([true, true, true, true, true], [t4, t3, t2, t1, t0]) := by
    simp [runRateChecks, s0, s1, s2, s3, s4]
  refine ⟨by rw [hrun], ?_, ?_⟩
  · have hcount : recentCount [t4, t3, t2, t1, t0] t5 = 5 := by
      unfold recentCount
      rw [List.filter_eq_self.mpr]
      · rfl
      · intro a ha
        simp only [List.mem_cons, List.not_mem_nil, or_false] at ha
        rcases ha with rfl | rfl | rfl | rfl | rfl <;> simp [RATE_WINDOW] <;> omega
    rw [hrun]
    unfold rateCheck
    rw [hcount]
    rfl
  · have hcount : recentCount [t4, t3, t2, t1, t0] t6 = 0 := by
      unfold recentCount
      rw [List.filter_eq_nil_iff.mpr]
      · rfl
      · intro a ha
        simp only [List.mem_cons, List.not_mem_nil, or_false] at ha
        rcases ha with rfl | rfl | rfl | rfl | rfl <;> simp [RATE_WINDOW] <;> omega
    rw [hrun]
    unfold rateCheck
    rw [hcount]
    rfl

/-- Claim C7 witness: the sliding-window theorem at the concrete times
0, 10, 20, 30, 40 (all allowed), 50 (rejected) and 100 (allowed again). -/
theorem sliding_window_rate_limit_witness :
    (runRateChecks [] [0, 10, 20, 30, 40]).1 = [true, true, true, true, true] ∧
    (rateCheck (runRateChecks [] [0, 10, 20, 30, 40]).2 50).1 = false ∧
    (rateCheck (runRateChecks [] [0, 10, 20, 30, 40]).2 100).1 = true :=
  sliding_window_rate_limit 0 10 20 30 40 50 100 (by decide) (by decide) (by decide)
    (by decide) (by decide) (by decide)

/-- Consuming a live, unexhausted single link succeeds and bumps its counter
(helper). -/
theorem consume_live_link (store : LinkStore) (l : TemporaryRevealLink) (t : Nat)
    (hlinks : store.links = [l]) (hactive : l.is_active = true)
    (hexp : t < l.expires_at) (huses : l.current_uses < l.max_uses) :
    validateAndConsume store l.link_id t =
      (.ok (store.secretOf l),
       { store with links := [{ l with current_uses := l.current_uses + 1 }] }) := by
  unfold validateAndConsume
  rw [hlinks]
  simp [hactive, Nat.not_le.mpr hexp, Nat.not_le.mpr huses, bumpUses, hlinks]

/-- Every consume call against an exhausted (but live, unexpired) link fails
with `Exhausted` and leaves the store unchanged (helper). -/
theorem consume_exhausted_link (store : LinkStore) (l : TemporaryRevealLink)
    (times : List Nat) (hlinks : store.links = [l]) (hactive : l.is_active = true)
    (hmax : l.max_uses ≤ l.current_uses) (hexp : ∀ t ∈ times, t < l.expires_at) :
    runConsumes store l.link_id times =
      (times.map (fun _ => .error .Exhausted), store) := by
  induction times with
  | nil => rfl
  | cons t ts ih =>
    have hstep : validateAndConsume store l.link_id t = (.error .Exhausted, store) := by
      unfold validateAndConsume
      rw [hlinks]
      simp [hactive, Nat.not_le.mpr (hexp t (by simp)), hmax]
    unfold runConsumes
    rw [hstep]
    dsimp only
    rw [ih (fun x hx => hexp x (by simp [hx]))]
    rfl

/-- Claim C5: for a link with `max_uses = 1` and `current_uses = 0`, a run
of `validateAndConsume` calls — the serialization of any set of concurrent
calls, since the check-and-increment is one atomic operation — yields
exactly one success, which returns the secret, and every other call fails
with `Exhausted`. -/
theorem single_use_link_one_winner (store : LinkStore) (l : TemporaryRevealLink)
    (t : Nat) (ts : List Nat) (hlinks : store.links = [l])
    (hactive : l.is_active = true) (hmax : l.max_uses = 1)
    (huses : l.current_uses = 0) (hexp : t < l.expires_at)
    (hexps : ∀ x ∈ ts, x < l.expires_at) :
    (runConsumes store l.link_id (t :: ts)).1 =
      .ok (store.secretOf l) :: ts.map (fun _ => .error .Exhausted) ∧
    countOk (runConsumes store l.link_id (t :: ts)).1 = 1 ∧
    countExhausted (runConsumes store l.link_id (t :: ts)).1 = (t :: ts).length - 1 := by
  have hfirst := consume_live_link store l t hlinks hactive hexp (by omega)
  have hrest := consume_exhausted_link
    { store with links := [{ l with current_uses := l.current_uses + 1 }] }
    { l with current_uses := l.current_uses + 1 } ts rfl hactive (by simp; omega)
    (by simpa using hexps)
  have hrun : (runConsumes store l.link_id (t :: ts)).1 =
      .ok (store.secretOf l) :: ts.map (fun _ => .error .Exhausted) := by
    unfold runConsumes
    rw [hfirst]
    dsimp only
    rw [hrest]
  refine ⟨hrun, ?_, ?_⟩
  · rw [hrun]
    unfold countOk
    rw [List.filter_cons_of_pos (by rfl)]
    simp
  · rw [hrun]
    unfold countExhausted
    rw [List.filter_cons_of_neg (by simp)]
    simp

/-- Claim C5 witness: 50 consume calls against a fresh `max_uses = 1` link:
exactly one succeeds and the other 49 receive `Exhausted`. -/
theorem single_use_link_one_winner_witness :
    countOk (runConsumes boundaryStore "lk1" (List.replicate 50 5)).1 = 1 ∧
    countExhausted (runConsumes boundaryStore "lk1" (List.replicate 50 5)).1 = 49 := by
  have h := single_use_link_one_winner boundaryStore boundaryLink 5
    (List.replicate 49 5) (by decide) (by decide) (by decide) (by decide) (by decide)
    (fun x hx => by
      have : x = 5 := List.eq_of_mem_replicate hx
      rw [this]; decide)
  exact ⟨h.2.1, h.2.2⟩

/-- When a backup-code lookup succeeds and the stored codes are pairwise
distinct, afterwards every entry carrying the presented code is marked used
(helper). -/
theorem consumeBackup_consumed (codes : List BackupCode) (c : String)
    (hnodup : (codes.map BackupCode.code).Nodup)
    (h : (consumeBackup codes c).1 = true) :
    codeConsumedL (consumeBackup codes c).2 c := by
  induction codes with
  | nil => cases h
  | cons b rest ih =>
    rw [List.map_cons, List.nodup_cons] at hnodup
    by_cases hb : (b.code == c && !b.used) = true
    · unfold consumeBackup
      rw [if_pos hb]
      intro x hx hc
      rcases List.mem_cons.mp hx with rfl | hxr
      · rfl
      · exfalso
        have hbc : b.code = c := by
          have hb' := hb
          simp only [Bool.and_eq_true, beq_iff_eq] at hb'
          exact hb'.1
        exact hnodup.1 (by rw [hbc, ← hc]; exact List.mem_map_of_mem _ hxr)
    · unfold consumeBackup at h ⊢
      rw [if_neg hb] at h ⊢
      dsimp only at h ⊢
      intro x hx hc
      rcases List.mem_cons.mp hx with rfl | hxr
      · by_contra hu
        apply hb
        simp only [Bool.and_eq_true, beq_iff_eq, hc, true_and, Bool.not_eq_true']
        exact Bool.not_eq_true _ ▸ (Bool.eq_false_iff.mpr hu)
      · exact ih hnodup.2 h x hxr hc

/-- A backup-code lookup for any token never unmarks a used code: if every
entry carrying `c` is used, the same holds after the lookup (helper). -/
theorem consumeBackup_preserves (codes : List BackupCode) (c tok : String)
    (h : codeConsumedL codes c) :
    codeConsumedL (consumeBackup codes tok).2 c := by
  induction codes with
  | nil => intro x hx; cases hx
  | cons b rest ih =>
    unfold consumeBackup
    by_cases hb : (b.code == tok && !b.used) = true
    · rw [if_pos hb]
      intro x hx hc
      rcases List.mem_cons.mp hx with rfl | hxr
      · rfl
      · exact h x (List.mem_cons_of_mem _ hxr) hc
    · rw [if_neg hb]
      dsimp only
      intro x hx hc
      rcases List.mem_cons.mp hx with rfl | hxr
      · exact h x (List.mem_cons_self _ _) hc
      · exact ih (fun y hy hyc => h y (List.mem_cons_of_mem _ hy) hyc) x hxr hc

/-- When every entry carrying `c` is already used, a backup-code lookup for
`c` fails (helper). -/
theorem consumeBackup_fails_of_consumed (codes : List BackupCode) (c : String)
    (h : codeConsumedL codes c) :
    (consumeBackup codes c).1 = false := by
  induction codes with
  | nil => rfl
  | cons b rest ih =>
    unfold consumeBackup
    have hb : (b.code == c && !b.used) = false := by
      by_cases hc : b.code = c
      · have hu : b.used = true := h b (List.mem_cons_self _ _) hc
        simp [hu]
      · simp [hc]
    rw [if_neg (by simp [hb])]
    dsimp only
    exact ih (fun y hy hyc => h y (List.mem_cons_of_mem _ hy) hyc)

/-- A verify call presenting a fully consumed code that is not a current
TOTP token returns invalid (helper). -/
theorem mfaVerify_fails_of_consumed (s : MFASecret) (n : Nat) (c : String)
    (hs : totpVerify s.secret n c = false) (h : codeConsumed s c) :
    (mfaVerify s n c).1 = false := by
  unfold mfaVerify
  simp only [hs, Bool.false_eq_true, if_false]
  exact consumeBackup_fails_of_consumed _ _ h

/-- An MFA verification never changes the shared secret (helper). -/
theorem mfaVerify_secret (s : MFASecret) (n : Nat) (tok : String) :
    (mfaVerify s n tok).2.secret = s.secret := by
  unfold mfaVerify
  split <;> rfl

/-- An MFA verification never unmarks a consumed backup code (helper). -/
theorem mfaVerify_preserves_consumed (s : MFASecret) (c : String) (n : Nat)
    (tok : String) (h : codeConsumed s c) :
    codeConsumed (mfaVerify s n tok).2 c := by
  unfold mfaVerify
  split
  · exact h
  · exact consumeBackup_preserves s.backupCodes c tok h

/-- A run of MFA verifications never changes the shared secret (helper). -/
theorem runVerifies_secret (s : MFASecret) (calls : List (Nat × String)) :
    (runVerifies s calls).secret = s.secret := by
  induction calls generalizing s with
  | nil => rfl
  | cons a cs ih =>
    unfold runVerifies
    rw [ih]
    exact mfaVerify_secret s a.1 a.2

/-- A run of MFA verifications never unmarks a consumed backup code
(helper). -/
theorem runVerifies_preserves_consumed (s : MFASecret) (c : String)
    (calls : List (Nat × String)) (h : codeConsumed s c) :
    codeConsumed (runVerifies s calls) c := by
  induction calls generalizing s with
  | nil => exact h
  | cons a cs ih => exact ih _ (mfaVerify_preserves_consumed s c a.1 a.2 h)

/-- Claim C6: a backup code verifies at most once: once a verify call has
consumed it (it did not pass as a TOTP token, so the backup path marked it
used), every later verify call presenting that same code — after any
sequence of intervening verifications, and again not colliding with a
current TOTP token — returns invalid, forever.  Backup codes are pairwise
distinct, as generated. -/
theorem backup_code_single_use (s : MFASecret) (c : String) (t0 t : Nat)
    (calls : List (Nat × String))
    (hnodup : (s.backupCodes.map BackupCode.code).Nodup)
    (h0 : totpVerify s.secret t0 c = false)
    (hconsumed : (mfaVerify s t0 c).1 = true)
    (ht : totpVerify s.secret t c = false) :
    (mfaVerify (runVerifies (mfaVerify s t0 c).2 calls) t c).1 = false := by
  have h1 : (consumeBackup s.backupCodes c).1 = true := by
    unfold mfaVerify at hconsumed
    simp only [h0, Bool.false_eq_true, if_false] at hconsumed
    exact hconsumed
  have hcons : codeConsumed (mfaVerify s t0 c).2 c := by
    have hc := consumeBackup_consumed s.backupCodes c hnodup h1
    unfold mfaVerify
    simp only [h0, Bool.false_eq_true, if_false]
    exact hc
  have hfinal : codeConsumed (runVerifies (mfaVerify s t0 c).2 calls) c :=
    runVerifies_preserves_consumed _ _ _ hcons
  have hsec : (runVerifies (mfaVerify s t0 c).2 calls).secret = s.secret := by
    rw [runVerifies_secret, mfaVerify_secret]
  have hts : totpVerify (runVerifies (mfaVerify s t0 c).2 calls).secret t c = false := by
    rw [hsec]
    exact ht
  exact mfaVerify_fails_of_consumed _ _ _ hts hfinal

/-- Claim C6 witness: the single-use theorem on the fixture MFA record —
code `AAAA1111` consumed at time 0, an intervening verification of the other
backup code, then the consumed code presented again at time 90 and
rejected. -/
theorem backup_code_single_use_witness :
    (mfaFixture.backupCodes.map BackupCode.code).Nodup ∧
    (mfaVerify mfaFixture 0 "AAAA1111").1 = true ∧
    (mfaVerify (runVerifies (mfaVerify mfaFixture 0 "AAAA1111").2
        [(30, "BBBB2222"), (60, "AAAA1111")]) 90 "AAAA1111").1 = false :=
  ⟨by decide, by decide,
   backup_code_single_use mfaFixture "AAAA1111" 0 90 [(30, "BBBB2222"), (60, "AAAA1111")]
     (by decide) (by decide) (by decide) (by decide)⟩

end RevealPassword
